import Mathlib

/-!
# Bank Management System — verification of the account ledger core

A shallow embedding of the repository's ledger and transaction engine:

* `main.py` — the CLI front end: `load_db`, `find_account`, `search_accounts`,
  `deposit`, `withdraw`, `transfer`, `calc_interest`, `create_account`,
  `hash_pin`, `verify_pin`;
* `app.py` — the Streamlit form front end's Deposit / Withdraw / Transfer /
  Create Account branches;
* `db.py` — the form front end's store and credential helpers (`load_db`,
  `hash_pin`, `verify_pin`);
* `utils.py` — `find_account`, `search_accounts`, `record_tx`.

Monetary amounts (Python floats) are modelled as rationals; the random
draws of `random.choices`, `os.urandom` and `uuid4`, and the wall clock
`datetime.utcnow`, are passed in as explicit arguments.  Python's in-place
mutation of the account dictionaries returned by `find_account` is modelled
by keyed in-place update of the first matching account of the document
(`updateFirstBy`), which coincides with Python's aliasing semantics because
every mutation in the source goes through the object `find_account` returned.
-/

namespace Bank

/-! ## SHA-256 (`hashlib.sha256(...).hexdigest()`)

A faithful executable FIPS 180-4 SHA-256 over the UTF-8 bytes of the input,
words represented as `Nat` reduced mod `2^32`. -/

def two32 : Nat := 4294967296

def rotr32 (x n : Nat) : Nat := ((x >>> n) ||| (x <<< (32 - n))) % two32

def bsig0 (x : Nat) : Nat := rotr32 x 2 ^^^ rotr32 x 13 ^^^ rotr32 x 22

def bsig1 (x : Nat) : Nat := rotr32 x 6 ^^^ rotr32 x 11 ^^^ rotr32 x 25

def ssig0 (x : Nat) : Nat := rotr32 x 7 ^^^ rotr32 x 18 ^^^ (x >>> 3)

def ssig1 (x : Nat) : Nat := rotr32 x 17 ^^^ rotr32 x 19 ^^^ (x >>> 10)

def chF (x y z : Nat) : Nat := (x &&& y) ^^^ ((x ^^^ 4294967295) &&& z)

def majF (x y z : Nat) : Nat := (x &&& y) ^^^ (x &&& z) ^^^ (y &&& z)

/-- The round constants K₀ … K₆₃ of FIPS 180-4 §4.2.2. -/
def shaK : List Nat :=
  [1116352408, 1899447441, 3049323471, 3921009573,
   961987163, 1508970993, 2453635748, 2870763221,
   3624381080, 310598401, 607225278, 1426881987,
   1925078388, 2162078206, 2614888103, 3248222580,
   3835390401, 4022224774, 264347078, 604807628,
   770255983, 1249150122, 1555081692, 1996064986,
   2554220882, 2821834349, 2952996808, 3210313671,
   3336571891, 3584528711, 113926993, 338241895,
   666307205, 773529912, 1294757372, 1396182291,
   1695183700, 1986661051, 2177026350, 2456956037,
   2730485921, 2820302411, 3259730800, 3345764771,
   3516065817, 3600352804, 4094571909, 275423344,
   430227734, 506948616, 659060556, 883997877,
   958139571, 1322822218, 1537002063, 1747873779,
   1955562222, 2024104815, 2227730452, 2361852424,
   2428436474, 2756734187, 3204031479, 3329325298]

structure Sha256State where
  a : Nat
  b : Nat
  c : Nat
  d : Nat
  e : Nat
  f : Nat
  g : Nat
  h : Nat

def initSha256State : Sha256State :=
  ⟨1779033703, 3144134277, 1013904242, 2773480762,
   1359893119, 2600822924, 528734635, 1541459225⟩

def roundStep (st : Sha256State) (k w : Nat) : Sha256State :=
  let t1 := (st.h + bsig1 st.e + chF st.e st.f st.g + k + w) % two32
  let t2 := (bsig0 st.a + majF st.a st.b st.c) % two32
  ⟨(t1 + t2) % two32, st.a, st.b, st.c, (st.d + t1) % two32, st.e, st.f, st.g⟩

/-- Big-endian 32-bit words from a byte list. -/
def bytesToWords : List Nat → List Nat
  | b0 :: b1 :: b2 :: b3 :: rest =>
      ((((b0 <<< 8) ||| b1) <<< 8 ||| b2) <<< 8 ||| b3) :: bytesToWords rest
  | _ => []

/-- Extend the 16-word message schedule by `n` further words (§6.2.2 step 1). -/
def extendSchedule (ws : List Nat) : Nat → List Nat
  | 0 => ws
  | n + 1 =>
      let len := ws.length
      let word := (ssig1 (ws.getD (len - 2) 0) + ws.getD (len - 7) 0 +
        ssig0 (ws.getD (len - 15) 0) + ws.getD (len - 16) 0) % two32
      extendSchedule (ws ++ [word]) n

def compressBlock (st : Sha256State) (block : List Nat) : Sha256State :=
  let ws := extendSchedule (bytesToWords block) 48
  let t := (shaK.zip ws).foldl (fun s kw => roundStep s kw.1 kw.2) st
  ⟨(st.a + t.a) % two32, (st.b + t.b) % two32, (st.c + t.c) % two32,
   (st.d + t.d) % two32, (st.e + t.e) % two32, (st.f + t.f) % two32,
   (st.g + t.g) % two32, (st.h + t.h) % two32⟩

/-- §5.1.1 padding: a 0x80 byte, zeros to 56 mod 64, the bit length in 8
big-endian bytes. -/
def padMessage (msg : List Nat) : List Nat :=
  let len := msg.length
  let zeros := (119 - (len % 64)) % 64
  msg ++ 0x80 :: (List.replicate zeros 0 ++
    (List.range 8).map (fun i => ((8 * len) >>> (8 * (7 - i))) % 256))

/-- Split into 64-byte blocks; the first argument is fuel (the list length
suffices). -/
def chunks64 : Nat → List Nat → List (List Nat)
  | 0, _ => []
  | _, [] => []
  | fuel + 1, l => l.take 64 :: chunks64 fuel (l.drop 64)

def sha256state (msg : List Nat) : Sha256State :=
  (chunks64 (padMessage msg).length (padMessage msg)).foldl compressBlock
    initSha256State

def stateToNat (st : Sha256State) : Nat :=
  ((((((st.a * two32 + st.b) * two32 + st.c) * two32 + st.d) * two32 + st.e) *
    two32 + st.f) * two32 + st.g) * two32 + st.h

/-- UTF-8 bytes of one character (`str.encode()`). -/
def utf8Char (c : Char) : List Nat :=
  let n := c.toNat
  if n < 0x80 then [n]
  else if n < 0x800 then [0xc0 ||| (n >>> 6), 0x80 ||| (n &&& 0x3f)]
  else if n < 0x10000 then
    [0xe0 ||| (n >>> 12), 0x80 ||| ((n >>> 6) &&& 0x3f), 0x80 ||| (n &&& 0x3f)]
  else
    [0xf0 ||| (n >>> 18), 0x80 ||| ((n >>> 12) &&& 0x3f),
     0x80 ||| ((n >>> 6) &&& 0x3f), 0x80 ||| (n &&& 0x3f)]

def utf8Encode (s : String) : List Nat :=
  s.data.foldr (fun c acc => utf8Char c ++ acc) []

def sha256digest (s : String) : Nat := stateToNat (sha256state (utf8Encode s))

/-- The digest as a 256-bit value: SHA-256 has a finite codomain. -/
def sha256fin (s : String) : Fin (2 ^ 256) :=
  ⟨sha256digest s % 2 ^ 256, Nat.mod_lt _ (by norm_num)⟩

def hexChar (n : Nat) : Char :=
  if n < 10 then Char.ofNat (48 + n) else Char.ofNat (87 + n)

/-- Fixed-width 64-character lowercase hex rendering (`hexdigest()`). -/
def hex64 (n : Nat) : String :=
  String.mk ((List.range 64).map (fun i => hexChar ((n >>> (4 * (63 - i))) % 16)))

/-- `hashlib.sha256(s.encode()).hexdigest()`. -/
def sha256hex (s : String) : String := hex64 (sha256fin s).1

/-! ## Credential subsystem (`db.py` / `main.py` `hash_pin`, `verify_pin`)

`os.urandom(8).hex()` — the salt drawn when none is supplied — is passed in
as the `fresh` argument. -/

def hash_pin (pin : String) (salt : Option String) (fresh : String) :
    String × String :=
  let s := salt.getD fresh
  (s, sha256hex (s ++ pin))

def verify_pin (pin salt hashed : String) : Bool :=
  sha256hex (salt ++ pin) == hashed

/-! ## Data model (§3 of the source's JSON document shape)

Identity attributes validated only at creation (`age`, `mobile`, `email`,
`aadhaar`, `pan`, `address`) and the `created_at` stamps are never read by
any ledger operation, so they are not carried here.  `account_no` is an
`Option` because the form front end's Create Account branch can append an
account whose number is Python's `None` (see `appCreateAccount`). -/

deriving instance DecidableEq for Except

structure Transaction where
  tx_id : String
  type : String
  amount : ℚ
  balance_after : ℚ
  note : String
  ts : String
deriving DecidableEq, Repr

structure Account where
  account_no : Option String
  name : String
  pin_salt : String
  pin_hash : String
  balance : ℚ
  transactions : List Transaction
deriving DecidableEq, Repr

structure Admin where
  username : String
  password : String
deriving DecidableEq, Repr

structure DocMeta where
  created_at : String
  admin : Admin
deriving DecidableEq, Repr

structure Document where
  meta : DocMeta
  accounts : List Account
deriving DecidableEq, Repr

def DEFAULT_ADMIN : Admin := { username := "roshan", password := "roshan8084" }

def freshDocument (now : String) : Document :=
  { meta := { created_at := now, admin := DEFAULT_ADMIN }, accounts := [] }

/-- Failure taxonomy of the operations (§7 of the spec; in the source each is
a distinct printed/shown error message). -/
inductive TxError
  | accountNotFound
  | sourceNotFound
  | destNotFound
  | invalidPin
  | invalidAmount
  | insufficientFunds
  | sameAccount
  | invalidRateOrYears
  | genFailed
deriving DecidableEq, Repr

/-! ## Persistence store (`main.py` `load_db` and `db.py` `load_db`)

The state of the persisted file is an explicit argument; `now` is the
creation timestamp a fresh document gets, `stamp` the
`strftime("%Y%m%d%H%M%S")` value used in the quarantine name. -/

inductive FileState
  | absent
  | parsable (db : Document)
  | unparsable (raw : String)

structure LoadOutcome where
  doc : Document
  /-- the name the corrupt file was renamed to, when that happened -/
  quarantine : Option String
deriving DecidableEq, Repr

/-- `main.py` `load_db`: absent → fresh document; parsable → its contents;
unparsable (`json.load` raises) → rename the file to
`bank_db.corrupt.<stamp>.json` and return a fresh document.  Total: no
exception escapes. -/
def load_db (fs : FileState) (now stamp : String) : LoadOutcome :=
  match fs with
  | .absent => { doc := freshDocument now, quarantine := none }
  | .parsable d => { doc := d, quarantine := none }
  | .unparsable _ =>
      { doc := freshDocument now,
        quarantine := some ("bank_db" ++ ".corrupt." ++ stamp ++ ".json") }

/-- `db.py` `load_db`: absent → fresh document; otherwise `json.load(f)` with
no `try`, so an unparsable file raises to the caller (`.error ()`). -/
def dbLoadDb (fs : FileState) (now : String) : Except Unit Document :=
  match fs with
  | .absent => .ok (freshDocument now)
  | .parsable d => .ok d
  | .unparsable _ => .error ()

/-! ## Account directory (`utils.py` `find_account`, `search_accounts`) -/

/-- `next((a for a in db["accounts"] if a["account_no"] == acc_no), None)`. -/
def find_account (db : Document) (acc_no : String) : Option Account :=
  db.accounts.find? (fun a => a.account_no == some acc_no)

/-- Python's substring test `needle in hay` on lists of characters. -/
def charInfix (needle : List Char) : List Char → Bool
  | [] => needle.isEmpty
  | c :: rest => needle.isPrefixOf (c :: rest) || charInfix needle rest

def pyIn (needle hay : String) : Bool := charInfix needle.data hay.data

/-- Python's `str.lower()` (per-character; the repository's data is ASCII). -/
def pyLower (s : String) : String := String.mk (s.data.map Char.toLower)

/-- Python's `str.strip()`: whitespace removed from both ends. -/
def pyStrip (s : String) : String :=
  String.mk
    (((s.data.dropWhile Char.isWhitespace).reverse.dropWhile
      Char.isWhitespace).reverse)

/-- The list comprehension of `search_accounts`, left to right; an account
whose `account_no` is `None` raises `AttributeError` on `.lower()`
(modelled `.error ()`) unless its name already matched. -/
def searchFilter (q : String) : List Account → Except Unit (List Account)
  | [] => .ok []
  | a :: rest =>
      if pyIn q (pyLower a.name) then (searchFilter q rest).map (a :: ·)
      else
        match a.account_no with
        | none => .error ()
        | some s =>
            if pyIn q (pyLower s) then (searchFilter q rest).map (a :: ·)
            else searchFilter q rest

/-- `utils.py` `search_accounts`: `q = query.lower().strip()`, then the
comprehension over `db["accounts"]`. -/
def search_accounts (db : Document) (query : String) : Except Unit (List Account) :=
  searchFilter (pyStrip (pyLower query)) db.accounts

/-! ## In-place mutation of the account `find_account` returned

Python mutates the first account dictionary whose `account_no` matches;
`updateFirstBy` is that update, keyed the same way. -/

def updateFirstBy (p : α → Bool) (g : α → α) : List α → List α
  | [] => []
  | x :: xs => if p x then g x :: xs else x :: updateFirstBy p g xs

def updateAccount (db : Document) (acc_no : String) (g : Account → Account) :
    Document :=
  { db with
    accounts := updateFirstBy (fun a => a.account_no == some acc_no) g db.accounts }

/-- `utils.py` `record_tx`: append one transaction whose `balance_after` is
the account's balance at append time; `tx_id` (`uuid4().hex`) and `ts`
(`now_iso()`) are passed in. -/
def record_tx (acct : Account) (tx_type : String) (amount : ℚ) (note : String)
    (tx_id ts : String) : Account :=
  { acct with
    transactions := acct.transactions ++
      [{ tx_id := tx_id, type := tx_type, amount := amount,
         balance_after := acct.balance, note := note, ts := ts }] }

/-- `acct["balance"] += d` (and with negative `d`, `-=`). -/
def addBalance (acct : Account) (d : ℚ) : Account :=
  { acct with balance := acct.balance + d }

/-! ## Transaction engine, CLI path (`main.py`)

Each operation returns the document as left in memory together with `none`
on success or the failure it printed.  Every failure branch of the source
returns before any mutation, so those branches return the document
untouched. -/

/-- `main.py` `deposit` (after `float()` parsing, which happens before any
mutation). -/
def deposit (db : Document) (acc_no : String) (amt : ℚ) (tx_id ts : String) :
    Document × Option TxError :=
  match find_account db acc_no with
  | none => (db, some .accountNotFound)
  | some _ =>
      if amt ≤ 0 then (db, some .invalidAmount)
      else
        let db1 := updateAccount db acc_no (fun a => addBalance a amt)
        (updateAccount db1 acc_no
          (fun a => record_tx a "deposit" amt "deposit via CLI" tx_id ts), none)

/-- `main.py` `withdraw`: lookup, then PIN, then `amt <= 0`, then
`amt > balance`. -/
def withdraw (db : Document) (acc_no pin : String) (amt : ℚ) (tx_id ts : String) :
    Document × Option TxError :=
  match find_account db acc_no with
  | none => (db, some .accountNotFound)
  | some acct =>
      if verify_pin pin acct.pin_salt acct.pin_hash then
        if amt ≤ 0 then (db, some .invalidAmount)
        else if acct.balance < amt then (db, some .insufficientFunds)
        else
          let db1 := updateAccount db acc_no (fun a => addBalance a (-amt))
          (updateAccount db1 acc_no
            (fun a => record_tx a "withdraw" amt "withdraw via CLI" tx_id ts), none)
      else (db, some .invalidPin)

/-- `main.py` `transfer`: source lookup, then PIN, then destination lookup,
then same-account rejection, then `amt <= 0`, then `amt > balance`. -/
def transfer (db : Document) (from_acc pin to_acc : String) (amt : ℚ)
    (tx_id1 tx_id2 ts : String) : Document × Option TxError :=
  match find_account db from_acc with
  | none => (db, some .sourceNotFound)
  | some acct_from =>
      if verify_pin pin acct_from.pin_salt acct_from.pin_hash then
        match find_account db to_acc with
        | none => (db, some .destNotFound)
        | some _ =>
            if to_acc = from_acc then (db, some .sameAccount)
            else if amt ≤ 0 then (db, some .invalidAmount)
            else if acct_from.balance < amt then (db, some .insufficientFunds)
            else
              let db1 := updateAccount db from_acc (fun a => addBalance a (-amt))
              let db2 := updateAccount db1 to_acc (fun a => addBalance a amt)
              let db3 := updateAccount db2 from_acc
                (fun a => record_tx a "transfer_out" amt ("to " ++ to_acc) tx_id1 ts)
              (updateAccount db3 to_acc
                (fun a => record_tx a "transfer_in" amt ("from " ++ from_acc) tx_id2 ts),
               none)
      else (db, some .invalidPin)

/-- `main.py` `calc_interest`: the preview is always computed; the mutation
happens only on the caller's explicit `y` confirmation (`apply_now`). -/
def calc_interest (db : Document) (acc_no : String) (rate years : ℚ)
    (apply_now : Bool) (tx_id ts : String) : Document × Option TxError :=
  match find_account db acc_no with
  | none => (db, some .accountNotFound)
  | some acct =>
      if rate < 0 ∨ years ≤ 0 then (db, some .invalidRateOrYears)
      else
        let interest := acct.balance * (rate / 100) * years
        if apply_now then
          let db1 := updateAccount db acc_no (fun a => addBalance a interest)
          (updateAccount db1 acc_no
            (fun a => record_tx a "interest" interest
              (toString rate ++ "% for " ++ toString years ++ " yrs") tx_id ts),
           none)
        else (db, none)

/-- The unique-account-number loop shared by both front ends:
`for _ in range(10): acc_no = gen_account_number(); if not find_account(db,
acc_no): break` — the first free candidate among the first ten draws of
`gen_account_number`, `none` when all ten collide.  The stream of random
draws is the `candidates` argument. -/
def pickAccNo (candidates : List String) (db : Document) : Option String :=
  (candidates.take 10).find? (fun c => (find_account db c).isNone)

/-- `main.py` `create_account`, from the account-number generation on (every
identity-field validation before it returns without touching the document).
The `for`/`else` aborts creation when all ten candidates collide. -/
def create_account (db : Document) (candidates : List String)
    (name pin fresh : String) : Document × Option TxError :=
  match pickAccNo candidates db with
  | none => (db, some .genFailed)
  | some acc_no =>
      let sh := hash_pin pin none fresh
      ({ db with
         accounts := db.accounts ++
           [{ account_no := some acc_no, name := name, pin_salt := sh.1,
              pin_hash := sh.2, balance := 0, transactions := [] }] }, none)

/-! ## Transaction engine, form path (`app.py` branches)

The Streamlit widgets bound the amounts (`st.number_input` with
`min_value=1.0` for Deposit/Withdraw/Transfer), so the branches themselves
perform no positivity check. -/

/-- `app.py` Deposit branch. -/
def appDeposit (db : Document) (acc_no : String) (amt : ℚ) (tx_id ts : String) :
    Document × Option TxError :=
  match find_account db acc_no with
  | none => (db, some .accountNotFound)
  | some _ =>
      let db1 := updateAccount db acc_no (fun a => addBalance a amt)
      (updateAccount db1 acc_no (fun a => record_tx a "deposit" amt "" tx_id ts),
       none)

/-- `app.py` Withdraw branch: lookup, then PIN, then `amount > balance`;
no `amount <= 0` check of its own. -/
def appWithdraw (db : Document) (acc_no pin : String) (amt : ℚ) (tx_id ts : String) :
    Document × Option TxError :=
  match find_account db acc_no with
  | none => (db, some .accountNotFound)
  | some acct =>
      if verify_pin pin acct.pin_salt acct.pin_hash then
        if acct.balance < amt then (db, some .insufficientFunds)
        else
          let db1 := updateAccount db acc_no (fun a => addBalance a (-amt))
          (updateAccount db1 acc_no (fun a => record_tx a "withdraw" amt "" tx_id ts),
           none)
      else (db, some .invalidPin)

/-- `app.py` Transfer branch: source lookup, then destination lookup, then
PIN, then `amount > balance`; no same-account rejection and no amount
check.  `a` and `b` alias the same dictionary when `f_acc == t_acc`, which
the keyed updates reproduce. -/
def appTransfer (db : Document) (f_acc pin t_acc : String) (amt : ℚ)
    (tx_id1 tx_id2 ts : String) : Document × Option TxError :=
  match find_account db f_acc with
  | none => (db, some .sourceNotFound)
  | some a =>
      match find_account db t_acc with
      | none => (db, some .destNotFound)
      | some _ =>
          if verify_pin pin a.pin_salt a.pin_hash then
            if a.balance < amt then (db, some .insufficientFunds)
            else
              let db1 := updateAccount db f_acc (fun x => addBalance x (-amt))
              let db2 := updateAccount db1 t_acc (fun x => addBalance x amt)
              let db3 := updateAccount db2 f_acc
                (fun x => record_tx x "transfer_out" amt ("to " ++ t_acc) tx_id1 ts)
              (updateAccount db3 t_acc
                (fun x => record_tx x "transfer_in" amt ("from " ++ f_acc) tx_id2 ts),
               none)
          else (db, some .invalidPin)

/-- `app.py` Create Account branch, from the number-generation loop on: the
loop leaves `acc_no = None` when all ten candidates collide, and the account
is appended unconditionally, `account_no` possibly `None`; the second
component is the `acc_no` echoed in the success message. -/
def appCreateAccount (db : Document) (candidates : List String)
    (name pin fresh : String) : Document × Option String :=
  let acc_no := pickAccNo candidates db
  let sh := hash_pin pin none fresh
  ({ db with
     accounts := db.accounts ++
       [{ account_no := acc_no, name := name, pin_salt := sh.1,
          pin_hash := sh.2, balance := 0, transactions := [] }] }, acc_no)

/-! ## Observables used by the statements -/

def balanceOf (db : Document) (acc_no : String) : Option ℚ :=
  (find_account db acc_no).map (·.balance)

def txsOf (db : Document) (acc_no : String) : Option (List Transaction) :=
  (find_account db acc_no).map (·.transactions)

/-- Every balance in the document is non-negative. -/
def NonNegDoc (db : Document) : Prop := ∀ a ∈ db.accounts, 0 ≤ a.balance

/-! ## Lemmas: keyed first-match update against `List.find?` -/

theorem updateFirstBy_of_find?_eq_none {p : α → Bool} {g : α → α} {l : List α}
    (h : l.find? p = none) : updateFirstBy p g l = l := by
  induction l with
  | nil => rfl
  | cons x xs ih =>
      rcases hx : p x with hfalse | htrue
      · rw [List.find?_cons_of_neg _ (by simp [hx])] at h
        simp [updateFirstBy, hx, ih h]
      · rw [List.find?_cons_of_pos _ hx] at h
        cases h

theorem find?_updateFirstBy_self {p : α → Bool} {g : α → α}
    (hg : ∀ x, p (g x) = p x) (l : List α) :
    (updateFirstBy p g l).find? p = (l.find? p).map g := by
  induction l with
  | nil => rfl
  | cons x xs ih =>
      rcases hx : p x with hfalse | htrue
      · simp [updateFirstBy, hx, List.find?_cons_of_neg, ih]
      · simp [updateFirstBy, hx, List.find?_cons_of_pos, hg x]

theorem find?_updateFirstBy_other {p p' : α → Bool} {g : α → α}
    (hg : ∀ x, p' (g x) = p' x) (hpq : ∀ x, p x = true → p' x = false)
    (l : List α) : (updateFirstBy p g l).find? p' = l.find? p' := by
  induction l with
  | nil => rfl
  | cons x xs ih =>
      rcases hx : p x with hfalse | htrue
      · rcases hx' : p' x with h1 | h2
        · simp [updateFirstBy, hx, List.find?_cons_of_neg, hx', ih]
        · simp [updateFirstBy, hx, List.find?_cons_of_pos, hx']
      · have hx' : p' x = false := hpq x hx
        have hgx : p' (g x) = false := by rw [hg]; exact hx'
        simp [updateFirstBy, hx, List.find?_cons_of_neg, hx', hgx]

theorem mem_updateFirstBy {p : α → Bool} {g : α → α} {l : List α} {x : α}
    (h : x ∈ updateFirstBy p g l) :
    x ∈ l ∨ ∃ a, l.find? p = some a ∧ x = g a := by
  induction l with
  | nil => cases h
  | cons y ys ih =>
      rcases hy : p y with hfalse | htrue
      · rw [updateFirstBy, if_neg (by simp [hy])] at h
        rcases List.mem_cons.mp h with rfl | h'
        · exact Or.inl (List.mem_cons_self _ _)
        · rcases ih h' with h'' | ⟨a, ha, rfl⟩
          · exact Or.inl (List.mem_cons_of_mem _ h'')
          · exact Or.inr ⟨a, by rw [List.find?_cons_of_neg _ (by simp [hy])]; exact ha, rfl⟩
      · rw [updateFirstBy, if_pos hy] at h
        rcases List.mem_cons.mp h with rfl | h'
        · exact Or.inr ⟨y, List.find?_cons_of_pos _ hy, rfl⟩
        · exact Or.inl (List.mem_cons_of_mem _ h')

/-! ## Lemmas: `find_account` against `updateAccount` -/

@[simp] theorem account_no_addBalance (a : Account) (d : ℚ) :
    (addBalance a d).account_no = a.account_no := rfl

@[simp] theorem balance_addBalance (a : Account) (d : ℚ) :
    (addBalance a d).balance = a.balance + d := rfl

@[simp] theorem transactions_addBalance (a : Account) (d : ℚ) :
    (addBalance a d).transactions = a.transactions := rfl

@[simp] theorem account_no_record_tx (a : Account) (ty : String) (amt : ℚ)
    (note i ts : String) : (record_tx a ty amt note i ts).account_no = a.account_no := rfl

@[simp] theorem balance_record_tx (a : Account) (ty : String) (amt : ℚ)
    (note i ts : String) : (record_tx a ty amt note i ts).balance = a.balance := rfl

@[simp] theorem transactions_record_tx (a : Account) (ty : String) (amt : ℚ)
    (note i ts : String) :
    (record_tx a ty amt note i ts).transactions = a.transactions ++
      [{ tx_id := i, type := ty, amount := amt, balance_after := a.balance,
         note := note, ts := ts }] := rfl

theorem find_account_updateAccount_self (db : Document) (q : String)
    {g : Account → Account} (hg : ∀ a, (g a).account_no = a.account_no) :
    find_account (updateAccount db q g) q = (find_account db q).map g := by
  unfold find_account updateAccount
  exact find?_updateFirstBy_self (fun x => by rw [hg]) db.accounts

theorem find_account_updateAccount_ne (db : Document) {q q' : String}
    (hne : q' ≠ q) {g : Account → Account}
    (hg : ∀ a, (g a).account_no = a.account_no) :
    find_account (updateAccount db q g) q' = find_account db q' := by
  unfold find_account updateAccount
  refine find?_updateFirstBy_other (fun x => by rw [hg]) (fun x hx => ?_) db.accounts
  have : x.account_no = some q := by simpa using hx
  simp [this]
  exact fun h => hne h.symm

theorem find_account_adjust_self (db : Document) (q : String) (d : ℚ) :
    find_account (updateAccount db q (fun x => addBalance x d)) q =
      (find_account db q).map (fun x => addBalance x d) :=
  find_account_updateAccount_self db q (fun _ => rfl)

theorem find_account_adjust_ne (db : Document) {q q' : String} (h : q' ≠ q) (d : ℚ) :
    find_account (updateAccount db q (fun x => addBalance x d)) q' =
      find_account db q' :=
  find_account_updateAccount_ne db h (fun _ => rfl)

theorem find_account_rec_self (db : Document) (q ty : String) (amt : ℚ)
    (note i ts : String) :
    find_account (updateAccount db q (fun x => record_tx x ty amt note i ts)) q =
      (find_account db q).map (fun x => record_tx x ty amt note i ts) :=
  find_account_updateAccount_self db q (fun _ => rfl)

theorem find_account_rec_ne (db : Document) {q q' : String} (h : q' ≠ q)
    (ty : String) (amt : ℚ) (note i ts : String) :
    find_account (updateAccount db q (fun x => record_tx x ty amt note i ts)) q' =
      find_account db q' :=
  find_account_updateAccount_ne db h (fun _ => rfl)

theorem find_account_eq_none_iff (db : Document) (q : String) :
    find_account db q = none ↔ ∀ a ∈ db.accounts, a.account_no ≠ some q := by
  unfold find_account
  rw [List.find?_eq_none]
  simp

/-! ## Lemmas: the hex digest always has 64 characters -/

@[simp] theorem sha256hex_length (s : String) : (sha256hex s).length = 64 := by
  simp [sha256hex, hex64, String.length]

/-- A stored hash of the wrong length verifies no PIN (used to build concrete
accounts whose PIN check fails without evaluating the compression function). -/
theorem verify_pin_of_length_ne (pin salt h : String) (hlen : h.length ≠ 64) :
    verify_pin pin salt h = false := by
  rw [verify_pin, beq_eq_false_iff_ne]
  intro heq
  exact hlen (heq ▸ sha256hex_length (salt ++ pin))

/-! ## Concrete sample data for witnesses and counterexamples

`goodAcct`/`otherAcct` store a deliberately short `pin_hash` (no PIN can
verify against it, by `verify_pin_of_length_ne`); `pinAcct` stores the real
salted hash of PIN `1234`. -/

def goodAcct : Account :=
  { account_no := some "ABCD123456", name := "alice", pin_salt := "a1b2",
    pin_hash := "deadbeef", balance := 500, transactions := [] }

def otherAcct : Account :=
  { account_no := some "WXYZ999999", name := "bob", pin_salt := "c3d4",
    pin_hash := "cafe", balance := 100, transactions := [] }

def sampleDoc : Document :=
  { meta := { created_at := "2026-01-01T00:00:00Z", admin := DEFAULT_ADMIN },
    accounts := [goodAcct, otherAcct] }

def pinAcct : Account :=
  { account_no := some "PINA000001", name := "carol", pin_salt := "a1b2",
    pin_hash := (hash_pin "1234" (some "a1b2") "").2, balance := 500,
    transactions := [] }

def pinDoc : Document :=
  { meta := { created_at := "2026-01-01T00:00:00Z", admin := DEFAULT_ADMIN },
    accounts := [pinAcct, otherAcct] }

theorem find_pinDoc_pinAcct : find_account pinDoc "PINA000001" = some pinAcct := rfl

theorem find_pinDoc_otherAcct : find_account pinDoc "WXYZ999999" = some otherAcct := rfl

theorem pinAcct_verify : verify_pin "1234" pinAcct.pin_salt pinAcct.pin_hash = true := by
  simp [pinAcct, verify_pin, hash_pin]

/-! ## C9 — PIN hashing / verification round trip -/

/-- **C9, counterexample.**  The claim as stated: `verify_pin` accepts the
PIN that was hashed (with the salt `hash_pin` returned) and rejects *every*
other PIN.  The rejection half asserts that `p' ↦ SHA-256(salt ‖ p')` is
injective on all strings, which is impossible for a function into the
finitely many 256-bit digests, so the conjunction is false. -/
theorem c9_counterexample :
    ¬ ((∀ pin salt fresh,
          verify_pin pin (hash_pin pin salt fresh).1 (hash_pin pin salt fresh).2 = true) ∧
       ∀ pin other salt fresh, other ≠ pin →
         verify_pin other (hash_pin pin salt fresh).1 (hash_pin pin salt fresh).2 = false) := by
  rintro ⟨-, h⟩
  obtain ⟨x, y, hxy, hf⟩ :=
    Finite.exists_ne_map_eq_of_infinite (fun p : String => sha256fin ("" ++ p))
  have hf' : sha256fin ("" ++ x) = sha256fin ("" ++ y) := hf
  have hhex : sha256hex ("" ++ x) = sha256hex ("" ++ y) := by
    simp only [sha256hex]
    rw [hf']
  have hv := h x y (some "") "" (Ne.symm hxy)
  simp only [hash_pin, Option.getD_some, verify_pin] at hv
  rw [hhex] at hv
  simp at hv

/-- **C9, amended.**  `verify_pin(pin, hash_pin(pin))` holds for every PIN
and every salt, supplied or freshly drawn; and for any other PIN the
verification fails exactly when the salted digest of the other PIN differs
from the stored one (which holds unless the two PINs collide under
SHA-256, but cannot hold universally). -/
theorem c9_verify_pin_round_trip :
    (∀ pin salt fresh,
       verify_pin pin (hash_pin pin salt fresh).1 (hash_pin pin salt fresh).2 = true) ∧
    ∀ pin other salt fresh,
      (verify_pin other (hash_pin pin salt fresh).1 (hash_pin pin salt fresh).2 = false ↔
        sha256hex (salt.getD fresh ++ other) ≠ sha256hex (salt.getD fresh ++ pin)) := by
  constructor
  · intro pin salt fresh
    simp [verify_pin, hash_pin]
  · intro pin other salt fresh
    simp [verify_pin, hash_pin, beq_eq_false_iff_ne]

/-- **C9, witness.**  The round trip at a concrete PIN, salt supplied and
salt freshly drawn. -/
theorem c9_witness :
    verify_pin "1234" (hash_pin "1234" (some "a1b2") "").1 (hash_pin "1234" (some "a1b2") "").2 = true ∧
    verify_pin "0007" (hash_pin "0007" none "f8e7").1 (hash_pin "0007" none "f8e7").2 = true :=
  ⟨c9_verify_pin_round_trip.1 "1234" (some "a1b2") "",
   c9_verify_pin_round_trip.1 "0007" none "f8e7"⟩

/-! ## C5 — corruption recovery on load -/

/-- **C5, counterexample.**  The claim as stated — `load()` on an existing
but unparsable document never lets an exception escape — fails on the form
front end's store: `db.py`'s `load_db` has no `try`, so `json.load` raises
to the caller and no document is returned. -/
theorem c5_counterexample :
    ¬ ∀ raw now, ∃ d, dbLoadDb (FileState.unparsable raw) now = Except.ok d := by
  intro h
  obtain ⟨d, hd⟩ := h "not json" "T"
  simp [dbLoadDb] at hd

/-- **C5, amended.**  The CLI store's `load_db` (`main.py`) is the one with
the recovery policy, and for it the claim holds: on an unparsable existing
document it returns (never raises) a freshly initialized empty document with
default admin credentials, and quarantines the original under
`bank_db.corrupt.<timestamp>.json`, a name distinct from the database
path.  The form store's `load_db` (`db.py`) instead propagates the parse
exception (`c5_counterexample`). -/
theorem c5_load_db_recovery : ∀ raw now stamp,
    (load_db (FileState.unparsable raw) now stamp).doc = freshDocument now ∧
    (freshDocument now).accounts = [] ∧
    (freshDocument now).meta.admin = DEFAULT_ADMIN ∧
    (load_db (FileState.unparsable raw) now stamp).quarantine =
      some ("bank_db" ++ ".corrupt." ++ stamp ++ ".json") ∧
    "bank_db" ++ ".corrupt." ++ stamp ++ ".json" ≠ "bank_db.json" := by
  intro raw now stamp
  refine ⟨rfl, rfl, rfl, rfl, fun h => ?_⟩
  have hlen := congrArg String.length h
  have h7 : ("bank_db" : String).length = 7 := rfl
  have h9 : (".corrupt." : String).length = 9 := rfl
  have h5 : (".json" : String).length = 5 := rfl
  have h12 : ("bank_db.json" : String).length = 12 := rfl
  simp only [String.length_append, h7, h9, h5, h12] at hlen
  omega

/-- **C5, witness.**  Recovery at a concrete corrupt file and timestamp. -/
theorem c5_witness :
    (load_db (FileState.unparsable "oops") "N" "20260101120000").doc.accounts = [] ∧
    (load_db (FileState.unparsable "oops") "N" "20260101120000").quarantine =
      some "bank_db.corrupt.20260101120000.json" := by
  have h := c5_load_db_recovery "oops" "N" "20260101120000"
  refine ⟨by rw [h.1]; exact h.2.1, by rw [h.2.2.2.1]; rfl⟩

/-! ## C8 — substring search -/

/-- The spec's description of a search hit: the query occurs
case-insensitively in the name or in the account number. -/
def specMatches (q : String) (a : Account) : Bool :=
  pyIn q (pyLower a.name) ||
    (match a.account_no with
     | some s => pyIn q (pyLower s)
     | none => false)

@[simp] theorem charInfix_nil (l : List Char) : charInfix [] l = true := by
  cases l <;> simp [charInfix, List.isPrefixOf]

@[simp] theorem pyIn_empty (s : String) : pyIn "" s = true := charInfix_nil s.data

theorem searchFilter_eq_filter (q : String) (l : List Account)
    (hwf : ∀ a ∈ l, a.account_no.isSome = true) :
    searchFilter q l = Except.ok (l.filter (specMatches q)) := by
  induction l with
  | nil => rfl
  | cons a rest ih =>
      obtain ⟨s, hs⟩ :=
        Option.isSome_iff_exists.mp (hwf a (List.mem_cons_self _ _))
      have ih' := ih (fun x hx => hwf x (List.mem_cons_of_mem _ hx))
      rcases h1 : pyIn q (pyLower a.name) with hn1 | hn2
      · rcases h2 : pyIn q (pyLower s) with hm1 | hm2
        · simp [searchFilter, h1, hs, h2, ih', List.filter_cons, specMatches]
        · simp [searchFilter, h1, hs, h2, ih', List.filter_cons, specMatches,
            Except.map]
      · simp [searchFilter, h1, hs, ih', List.filter_cons, specMatches,
          Except.map]

/-- **C8, counterexample.**  The claim as stated: an empty or
whitespace-only query returns no results.  In the source the stripped query
becomes `""`, Python's `"" in s` is `True` for every string, so
`search_accounts` returns the *full* account list — here a document with
two accounts. -/
theorem c8_counterexample :
    ¬ ∀ (db : Document) (query : String), pyStrip query = "" →
        search_accounts db query = Except.ok [] := by
  intro h
  have := h sampleDoc " " (by decide)
  exact absurd this (by decide)

/-- **C8, amended.**  On a document whose accounts all carry an account
number, `search_accounts` returns exactly the accounts whose name or
account number contains the lowercased, stripped query as a
case-insensitive substring; when the query strips to the empty string this
filter keeps everything, so an empty or whitespace-only query returns the
full unfiltered account list (the CLI caller refuses empty queries before
calling; the form caller does not). -/
theorem c8_search_accounts_spec : ∀ (db : Document) (query : String),
    (∀ a ∈ db.accounts, a.account_no.isSome = true) →
    search_accounts db query =
      Except.ok (db.accounts.filter (specMatches (pyStrip (pyLower query)))) ∧
    (pyStrip (pyLower query) = "" →
      search_accounts db query = Except.ok db.accounts) := by
  intro db query hwf
  have hmain := searchFilter_eq_filter (pyStrip (pyLower query)) db.accounts hwf
  refine ⟨hmain, fun hq => ?_⟩
  rw [search_accounts, hmain, hq]
  congr 1
  refine List.filter_eq_self.mpr (fun a _ => ?_)
  simp [specMatches]

/-- **C8, witness.**  A concrete case-insensitive hit: query `"ALI"`
matches only the account named `"alice"`. -/
theorem c8_witness :
    search_accounts sampleDoc "ALI" = Except.ok [goodAcct] := by
  have h := (c8_search_accounts_spec sampleDoc "ALI" (by decide)).1
  rw [h]
  decide

/-! ## C4 — deposit -/

/-- **C4.**  `main.py` `deposit`: a missing account fails `AccountNotFound`
and a non-positive amount fails `InvalidAmount`, each leaving the document
untouched; a valid deposit succeeds, the stored balance becomes
`balance + amt`, exactly one `deposit` transaction is appended whose
`amount` is the deposited amount and whose `balance_after` equals the new
stored balance, and no other account changes. -/
theorem c4_deposit_spec : ∀ (db : Document) (acc_no : String) (amt : ℚ)
    (tx_id ts : String),
    (find_account db acc_no = none →
      deposit db acc_no amt tx_id ts = (db, some TxError.accountNotFound)) ∧
    (∀ a, find_account db acc_no = some a →
      (amt ≤ 0 → deposit db acc_no amt tx_id ts = (db, some TxError.invalidAmount)) ∧
      (0 < amt →
        (deposit db acc_no amt tx_id ts).2 = none ∧
        find_account (deposit db acc_no amt tx_id ts).1 acc_no =
          some { a with
                 balance := a.balance + amt,
                 transactions := a.transactions ++
                   [{ tx_id := tx_id, type := "deposit", amount := amt,
                      balance_after := a.balance + amt,
                      note := "deposit via CLI", ts := ts }] } ∧
        (∀ q, q ≠ acc_no →
          find_account (deposit db acc_no amt tx_id ts).1 q = find_account db q))) := by
  intro db acc_no amt tx_id ts
  refine ⟨fun h => by simp [deposit, h],
    fun a ha => ⟨fun hle => by simp [deposit, ha, hle], fun hpos => ?_⟩⟩
  have hle : ¬ amt ≤ 0 := not_le.mpr hpos
  have e1 : deposit db acc_no amt tx_id ts =
      (updateAccount (updateAccount db acc_no (fun x => addBalance x amt)) acc_no
        (fun x => record_tx x "deposit" amt "deposit via CLI" tx_id ts), none) := by
    simp [deposit, ha, hle]
  refine ⟨by rw [e1], ?_, ?_⟩
  · rw [e1]
    rw [find_account_rec_self, find_account_adjust_self, ha]
    simp [record_tx, addBalance]
  · intro q hq
    rw [e1]
    rw [find_account_rec_ne _ hq, find_account_adjust_ne _ hq]

/-- **C4, witness.**  Depositing 250 into the sample account (balance 500)
succeeds and leaves 750. -/
theorem c4_witness :
    (deposit sampleDoc "ABCD123456" 250 "tx1" "T1").2 = none ∧
    balanceOf (deposit sampleDoc "ABCD123456" 250 "tx1" "T1").1 "ABCD123456" =
      some 750 := by
  have h := ((c4_deposit_spec sampleDoc "ABCD123456" 250 "tx1" "T1").2 goodAcct
    rfl).2 (by norm_num)
  refine ⟨h.1, ?_⟩
  simp only [balanceOf]
  rw [h.2.1]
  norm_num [goodAcct]

/-! ## C2 — withdraw -/

/-- **C2.**  `main.py` `withdraw` checks, in this order: account lookup
(`AccountNotFound`), PIN (`InvalidPin`, regardless of the amount),
amount validity (`InvalidAmount` when `amt ≤ 0`), sufficient funds
(`InsufficientFunds` when `amt > balance`); every failure leaves the
document untouched, and on success the balance decreases by the amount and
exactly one `withdraw` transaction is appended. -/
theorem c2_withdraw_spec : ∀ (db : Document) (acc_no pin : String) (amt : ℚ)
    (tx_id ts : String),
    (find_account db acc_no = none →
      withdraw db acc_no pin amt tx_id ts = (db, some TxError.accountNotFound)) ∧
    (∀ a, find_account db acc_no = some a →
      (verify_pin pin a.pin_salt a.pin_hash = false →
        withdraw db acc_no pin amt tx_id ts = (db, some TxError.invalidPin)) ∧
      (verify_pin pin a.pin_salt a.pin_hash = true →
        (amt ≤ 0 →
          withdraw db acc_no pin amt tx_id ts = (db, some TxError.invalidAmount)) ∧
        (0 < amt → a.balance < amt →
          withdraw db acc_no pin amt tx_id ts = (db, some TxError.insufficientFunds)) ∧
        (0 < amt → amt ≤ a.balance →
          (withdraw db acc_no pin amt tx_id ts).2 = none ∧
          find_account (withdraw db acc_no pin amt tx_id ts).1 acc_no =
            some { a with
                   balance := a.balance - amt,
                   transactions := a.transactions ++
                     [{ tx_id := tx_id, type := "withdraw", amount := amt,
                        balance_after := a.balance - amt,
                        note := "withdraw via CLI", ts := ts }] }))) := by
  intro db acc_no pin amt tx_id ts
  refine ⟨fun h => by simp [withdraw, h], fun a ha => ⟨fun hv => by
    simp [withdraw, ha, hv], fun hv => ⟨fun hle => by simp [withdraw, ha, hv, hle],
      fun hpos hlt => by simp [withdraw, ha, hv, not_le.mpr hpos, hlt],
      fun hpos hge => ?_⟩⟩⟩
  have hle : ¬ amt ≤ 0 := not_le.mpr hpos
  have hlt : ¬ a.balance < amt := not_lt.mpr hge
  have e1 : withdraw db acc_no pin amt tx_id ts =
      (updateAccount (updateAccount db acc_no (fun x => addBalance x (-amt))) acc_no
        (fun x => record_tx x "withdraw" amt "withdraw via CLI" tx_id ts), none) := by
    simp [withdraw, ha, hv, hle, hlt]
  refine ⟨by rw [e1], ?_⟩
  rw [e1]
  rw [find_account_rec_self, find_account_adjust_self, ha]
  simp [record_tx, addBalance, sub_eq_add_neg]

/-- **C2, witness.**  Withdrawing 100 with the correct PIN from the account
holding 500 succeeds and leaves 400. -/
theorem c2_witness :
    (withdraw pinDoc "PINA000001" "1234" 100 "tx2" "T2").2 = none ∧
    balanceOf (withdraw pinDoc "PINA000001" "1234" 100 "tx2" "T2").1 "PINA000001" =
      some 400 := by
  have h := (((c2_withdraw_spec pinDoc "PINA000001" "1234" 100 "tx2" "T2").2 pinAcct
    find_pinDoc_pinAcct).2 pinAcct_verify).2.2 (by norm_num) (by norm_num [pinAcct])
  refine ⟨h.1, ?_⟩
  simp only [balanceOf]
  rw [h.2]
  norm_num [pinAcct]

/-! ## Transfers: the success chain of both front ends

On success both transfers debit the source, credit the destination, then
append `transfer_out` to the source and `transfer_in` to the destination,
`balance_after` read from the account at append time. -/

theorem transfer_chain_finds (db : Document) (f t : String) (amt : ℚ)
    (i1 i2 ts : String) (af bt : Account) (hne : f ≠ t)
    (haf : find_account db f = some af) (hbt : find_account db t = some bt) :
    find_account
      (updateAccount
        (updateAccount
          (updateAccount (updateAccount db f (fun x => addBalance x (-amt))) t
            (fun x => addBalance x amt)) f
          (fun x => record_tx x "transfer_out" amt ("to " ++ t) i1 ts)) t
        (fun x => record_tx x "transfer_in" amt ("from " ++ f) i2 ts)) f =
      some { af with
             balance := af.balance - amt,
             transactions := af.transactions ++
               [{ tx_id := i1, type := "transfer_out", amount := amt,
                  balance_after := af.balance - amt, note := "to " ++ t,
                  ts := ts }] } ∧
    find_account
      (updateAccount
        (updateAccount
          (updateAccount (updateAccount db f (fun x => addBalance x (-amt))) t
            (fun x => addBalance x amt)) f
          (fun x => record_tx x "transfer_out" amt ("to " ++ t) i1 ts)) t
        (fun x => record_tx x "transfer_in" amt ("from " ++ f) i2 ts)) t =
      some { bt with
             balance := bt.balance + amt,
             transactions := bt.transactions ++
               [{ tx_id := i2, type := "transfer_in", amount := amt,
                  balance_after := bt.balance + amt, note := "from " ++ f,
                  ts := ts }] } := by
  constructor
  · rw [find_account_rec_ne _ hne, find_account_rec_self,
        find_account_adjust_ne _ hne, find_account_adjust_self, haf]
    simp [record_tx, addBalance, sub_eq_add_neg]
  · rw [find_account_rec_self, find_account_rec_ne _ (Ne.symm hne),
        find_account_adjust_self, find_account_adjust_ne _ (Ne.symm hne), hbt]
    simp [record_tx, addBalance]

/-! ## C1 — conservation of funds and transactional pairing of transfers -/

/-- **C1.**  For a transfer between two distinct existing accounts, in both
front ends: on success the source loses exactly `amt`, the destination
gains exactly `amt` (so the two balances sum to what they summed to
before), and exactly one `transfer_out` record is appended to the source
and one `transfer_in` record to the destination; on any failure the
document is returned untouched, so neither balance nor either transaction
list changes (both records are appended or neither is). -/
theorem c1_transfer_conservation : ∀ (db : Document) (f pin t : String)
    (amt : ℚ) (i1 i2 ts : String) (af bt : Account),
    f ≠ t → find_account db f = some af → find_account db t = some bt →
    ((transfer db f pin t amt i1 i2 ts).2 = none →
      find_account (transfer db f pin t amt i1 i2 ts).1 f =
        some { af with
               balance := af.balance - amt,
               transactions := af.transactions ++
                 [{ tx_id := i1, type := "transfer_out", amount := amt,
                    balance_after := af.balance - amt, note := "to " ++ t,
                    ts := ts }] } ∧
      find_account (transfer db f pin t amt i1 i2 ts).1 t =
        some { bt with
               balance := bt.balance + amt,
               transactions := bt.transactions ++
                 [{ tx_id := i2, type := "transfer_in", amount := amt,
                    balance_after := bt.balance + amt, note := "from " ++ f,
                    ts := ts }] } ∧
      (af.balance - amt) + (bt.balance + amt) = af.balance + bt.balance) ∧
    ((transfer db f pin t amt i1 i2 ts).2 ≠ none →
      (transfer db f pin t amt i1 i2 ts).1 = db) ∧
    ((appTransfer db f pin t amt i1 i2 ts).2 = none →
      find_account (appTransfer db f pin t amt i1 i2 ts).1 f =
        some { af with
               balance := af.balance - amt,
               transactions := af.transactions ++
                 [{ tx_id := i1, type := "transfer_out", amount := amt,
                    balance_after := af.balance - amt, note := "to " ++ t,
                    ts := ts }] } ∧
      find_account (appTransfer db f pin t amt i1 i2 ts).1 t =
        some { bt with
               balance := bt.balance + amt,
               transactions := bt.transactions ++
                 [{ tx_id := i2, type := "transfer_in", amount := amt,
                    balance_after := bt.balance + amt, note := "from " ++ f,
                    ts := ts }] } ∧
      (af.balance - amt) + (bt.balance + amt) = af.balance + bt.balance) ∧
    ((appTransfer db f pin t amt i1 i2 ts).2 ≠ none →
      (appTransfer db f pin t amt i1 i2 ts).1 = db) := by
  intro db f pin t amt i1 i2 ts af bt hne haf hbt
  have hchain := transfer_chain_finds db f t amt i1 i2 ts af bt hne haf hbt
  have htf : ¬ t = f := fun h => hne h.symm
  refine ⟨?_, ?_, ?_, ?_⟩
  · intro h2
    rcases hv : verify_pin pin af.pin_salt af.pin_hash with hv0 | hv1
    · simp [transfer, haf, hv] at h2
    · by_cases hle : amt ≤ 0
      · simp [transfer, haf, hv, hbt, htf, hle] at h2
      · by_cases hlt : af.balance < amt
        · simp [transfer, haf, hv, hbt, htf, hle, hlt] at h2
        · have e1 : transfer db f pin t amt i1 i2 ts =
              (updateAccount
                (updateAccount
                  (updateAccount (updateAccount db f (fun x => addBalance x (-amt)))
                    t (fun x => addBalance x amt)) f
                  (fun x => record_tx x "transfer_out" amt ("to " ++ t) i1 ts)) t
                (fun x => record_tx x "transfer_in" amt ("from " ++ f) i2 ts),
               none) := by
            simp [transfer, haf, hv, hbt, htf, hle, hlt]
          rw [e1]
          exact ⟨hchain.1, hchain.2, by ring⟩
  · intro h2
    rcases hv : verify_pin pin af.pin_salt af.pin_hash with hv0 | hv1
    · simp [transfer, haf, hv]
    · by_cases hle : amt ≤ 0
      · simp [transfer, haf, hv, hbt, htf, hle]
      · by_cases hlt : af.balance < amt
        · simp [transfer, haf, hv, hbt, htf, hle, hlt]
        · exact absurd (by simp [transfer, haf, hv, hbt, htf, hle, hlt]) h2
  · intro h2
    rcases hv : verify_pin pin af.pin_salt af.pin_hash with hv0 | hv1
    · simp [appTransfer, haf, hbt, hv] at h2
    · by_cases hlt : af.balance < amt
      · simp [appTransfer, haf, hbt, hv, hlt] at h2
      · have e1 : appTransfer db f pin t amt i1 i2 ts =
            (updateAccount
              (updateAccount
                (updateAccount (updateAccount db f (fun x => addBalance x (-amt)))
                  t (fun x => addBalance x amt)) f
                (fun x => record_tx x "transfer_out" amt ("to " ++ t) i1 ts)) t
              (fun x => record_tx x "transfer_in" amt ("from " ++ f) i2 ts),
             none) := by
          simp [appTransfer, haf, hbt, hv, hlt]
        rw [e1]
        exact ⟨hchain.1, hchain.2, by ring⟩
  · intro h2
    rcases hv : verify_pin pin af.pin_salt af.pin_hash with hv0 | hv1
    · simp [appTransfer, haf, hbt, hv]
    · by_cases hlt : af.balance < amt
      · simp [appTransfer, haf, hbt, hv, hlt]
      · exact absurd (by simp [appTransfer, haf, hbt, hv, hlt]) h2

theorem pinAcct_balance : pinAcct.balance = 500 := rfl

theorem otherAcct_balance : otherAcct.balance = 100 := rfl

theorem pinAcct_transactions : pinAcct.transactions = [] := rfl

theorem find_sampleDoc_goodAcct : find_account sampleDoc "ABCD123456" = some goodAcct := rfl

/-- **C1, witness.**  The spec's own scenario: transferring 200 from an
account holding 500 to one holding 100 (correct PIN) succeeds and leaves
300 and 300. -/
theorem c1_witness :
    (transfer pinDoc "PINA000001" "1234" "WXYZ999999" 200 "i1" "i2" "T3").2 = none ∧
    balanceOf (transfer pinDoc "PINA000001" "1234" "WXYZ999999" 200 "i1" "i2" "T3").1
      "PINA000001" = some 300 ∧
    balanceOf (transfer pinDoc "PINA000001" "1234" "WXYZ999999" 200 "i1" "i2" "T3").1
      "WXYZ999999" = some 300 := by
  have hsucc : (transfer pinDoc "PINA000001" "1234" "WXYZ999999" 200 "i1" "i2" "T3").2 =
      none := by
    have hne : ("WXYZ999999" : String) = "PINA000001" ↔ False :=
      iff_false_intro (by decide)
    norm_num [transfer, find_pinDoc_pinAcct, find_pinDoc_otherAcct, pinAcct_verify,
      pinAcct_balance, hne]
  have h := (c1_transfer_conservation pinDoc "PINA000001" "1234" "WXYZ999999" 200
    "i1" "i2" "T3" pinAcct otherAcct (by decide) find_pinDoc_pinAcct
    find_pinDoc_otherAcct).1 hsucc
  refine ⟨hsucc, ?_, ?_⟩
  · simp only [balanceOf]
    rw [h.1]
    norm_num [pinAcct_balance]
  · simp only [balanceOf]
    rw [h.2.1]
    norm_num [otherAcct_balance]

/-! ## C7 — order of the transfer checks -/

/-- **C7, counterexample.**  The claim as stated: the destination lookup
precedes PIN verification, so a missing destination is always reported as
the destination-lookup failure even with a wrong PIN.  The CLI transfer
(`main.py`) verifies the PIN *before* looking the destination up: with a
wrong PIN and a missing destination it reports `InvalidPin`. -/
theorem c7_counterexample :
    ¬ ∀ (db : Document) (f pin t : String) (amt : ℚ) (i1 i2 ts : String),
        (find_account db f).isSome = true → find_account db t = none →
        (transfer db f pin t amt i1 i2 ts).2 = some TxError.destNotFound := by
  intro h
  have hv : verify_pin "1234" goodAcct.pin_salt goodAcct.pin_hash = false :=
    verify_pin_of_length_ne _ _ _ (by decide)
  have hres : (transfer sampleDoc "ABCD123456" "1234" "MISSING" 5 "i" "j" "T").2 =
      some TxError.invalidPin := by
    simp [transfer, find_sampleDoc_goodAcct, hv]
  have hclaim := h sampleDoc "ABCD123456" "1234" "MISSING" 5 "i" "j" "T"
    (by rw [find_sampleDoc_goodAcct]; rfl) rfl
  rw [hres] at hclaim
  simp at hclaim

/-- **C7, amended.**  The CLI transfer (`main.py`) checks source lookup →
PIN (against the source) → destination lookup → same-account rejection →
amount validity → sufficient funds; the form transfer (`app.py`) checks
source lookup → destination lookup → PIN → sufficient funds, with no
same-account rejection and no amount-validity check of its own.  In
particular a missing destination is reported as the destination failure
by the form path for any PIN, but by the CLI path only when the PIN
verifies. -/
theorem c7_transfer_check_order : ∀ (db : Document) (f pin t : String)
    (amt : ℚ) (i1 i2 ts : String),
    (find_account db f = none →
      transfer db f pin t amt i1 i2 ts = (db, some TxError.sourceNotFound)) ∧
    (∀ a, find_account db f = some a →
      (verify_pin pin a.pin_salt a.pin_hash = false →
        transfer db f pin t amt i1 i2 ts = (db, some TxError.invalidPin)) ∧
      (verify_pin pin a.pin_salt a.pin_hash = true →
        (find_account db t = none →
          transfer db f pin t amt i1 i2 ts = (db, some TxError.destNotFound)) ∧
        (∀ b, find_account db t = some b →
          (t = f → transfer db f pin t amt i1 i2 ts = (db, some TxError.sameAccount)) ∧
          (t ≠ f → amt ≤ 0 →
            transfer db f pin t amt i1 i2 ts = (db, some TxError.invalidAmount)) ∧
          (t ≠ f → 0 < amt → a.balance < amt →
            transfer db f pin t amt i1 i2 ts = (db, some TxError.insufficientFunds))))) ∧
    (find_account db f = none →
      appTransfer db f pin t amt i1 i2 ts = (db, some TxError.sourceNotFound)) ∧
    (∀ a, find_account db f = some a →
      (find_account db t = none →
        appTransfer db f pin t amt i1 i2 ts = (db, some TxError.destNotFound)) ∧
      (∀ b, find_account db t = some b →
        (verify_pin pin a.pin_salt a.pin_hash = false →
          appTransfer db f pin t amt i1 i2 ts = (db, some TxError.invalidPin)) ∧
        (verify_pin pin a.pin_salt a.pin_hash = true → a.balance < amt →
          appTransfer db f pin t amt i1 i2 ts = (db, some TxError.insufficientFunds)))) := by
  intro db f pin t amt i1 i2 ts
  refine ⟨fun h => by simp [transfer, h], fun a ha => ⟨fun hv => by
    simp [transfer, ha, hv], fun hv => ⟨fun ht => by simp [transfer, ha, hv, ht],
      fun b hb => ⟨fun htf => by simp [transfer, ha, hv, hb, htf],
        fun htf hle => by simp [transfer, ha, hv, hb, htf, hle],
        fun htf hpos hlt => by
          simp [transfer, ha, hv, hb, htf, not_le.mpr hpos, hlt]⟩⟩⟩,
    fun h => by simp [appTransfer, h], fun a ha => ⟨fun ht => by
      simp [appTransfer, ha, ht], fun b hb => ⟨fun hv => by
        simp [appTransfer, ha, hb, hv], fun hv hlt => by
        simp [appTransfer, ha, hb, hv, hlt]⟩⟩⟩

/-- **C7, witness.**  A missing source is reported as the source-lookup
failure by both paths. -/
theorem c7_witness :
    transfer sampleDoc "NOPE" "1234" "ABCD123456" 5 "i" "j" "T" =
      (sampleDoc, some TxError.sourceNotFound) ∧
    appTransfer sampleDoc "NOPE" "1234" "ABCD123456" 5 "i" "j" "T" =
      (sampleDoc, some TxError.sourceNotFound) :=
  ⟨(c7_transfer_check_order sampleDoc "NOPE" "1234" "ABCD123456" 5 "i" "j" "T").1 rfl,
   (c7_transfer_check_order sampleDoc "NOPE" "1234" "ABCD123456" 5 "i" "j" "T").2.2.1 rfl⟩

/-! ## C10 — the form front end accepts a self-transfer -/

/-- **C10.**  In the form front end, a transfer whose source and
destination coincide (correct PIN, amount within the balance) *succeeds*:
the debit and credit hit the same aliased account, so its balance is
unchanged at the end, and two transactions — a `transfer_out` followed by
a `transfer_in`, both with `balance_after` equal to that unchanged
balance — are appended to that single account. -/
theorem c10_app_self_transfer : ∀ (db : Document) (acc pin : String) (amt : ℚ)
    (i1 i2 ts : String) (a : Account),
    find_account db acc = some a →
    verify_pin pin a.pin_salt a.pin_hash = true →
    amt ≤ a.balance →
    (appTransfer db acc pin acc amt i1 i2 ts).2 = none ∧
    balanceOf (appTransfer db acc pin acc amt i1 i2 ts).1 acc = some a.balance ∧
    txsOf (appTransfer db acc pin acc amt i1 i2 ts).1 acc =
      some (a.transactions ++
        [{ tx_id := i1, type := "transfer_out", amount := amt,
           balance_after := a.balance, note := "to " ++ acc, ts := ts },
         { tx_id := i2, type := "transfer_in", amount := amt,
           balance_after := a.balance, note := "from " ++ acc, ts := ts }]) := by
  intro db acc pin amt i1 i2 ts a ha hv hle
  have hlt : ¬ a.balance < amt := not_lt.mpr hle
  have e1 : appTransfer db acc pin acc amt i1 i2 ts =
      (updateAccount
        (updateAccount
          (updateAccount (updateAccount db acc (fun x => addBalance x (-amt))) acc
            (fun x => addBalance x amt)) acc
          (fun x => record_tx x "transfer_out" amt ("to " ++ acc) i1 ts)) acc
        (fun x => record_tx x "transfer_in" amt ("from " ++ acc) i2 ts),
       none) := by
    simp [appTransfer, ha, hv, hlt]
  have hb : a.balance + -amt + amt = a.balance := by ring
  refine ⟨by rw [e1], ?_, ?_⟩
  · simp only [balanceOf]
    rw [e1, find_account_rec_self, find_account_rec_self,
        find_account_adjust_self, find_account_adjust_self, ha]
    simp [record_tx, addBalance, hb]
  · simp only [txsOf]
    rw [e1, find_account_rec_self, find_account_rec_self,
        find_account_adjust_self, find_account_adjust_self, ha]
    simp [record_tx, addBalance, hb]

/-- **C10, witness.**  A concrete self-transfer of 200 on the account
holding 500: success, balance still 500, and the `transfer_out` /
`transfer_in` pair appended. -/
theorem c10_witness :
    (appTransfer pinDoc "PINA000001" "1234" "PINA000001" 200 "i1" "i2" "T4").2 = none ∧
    balanceOf (appTransfer pinDoc "PINA000001" "1234" "PINA000001" 200 "i1" "i2" "T4").1
      "PINA000001" = some 500 ∧
    txsOf (appTransfer pinDoc "PINA000001" "1234" "PINA000001" 200 "i1" "i2" "T4").1
      "PINA000001" =
      some [{ tx_id := "i1", type := "transfer_out", amount := 200,
              balance_after := 500, note := "to " ++ "PINA000001", ts := "T4" },
            { tx_id := "i2", type := "transfer_in", amount := 200,
              balance_after := 500, note := "from " ++ "PINA000001", ts := "T4" }] := by
  have h := c10_app_self_transfer pinDoc "PINA000001" "1234" 200 "i1" "i2" "T4"
    pinAcct find_pinDoc_pinAcct pinAcct_verify (by rw [pinAcct_balance]; norm_num)
  refine ⟨h.1, ?_, ?_⟩
  · rw [h.2.1, pinAcct_balance]
  · rw [h.2.2, pinAcct_transactions, pinAcct_balance]
    rfl

/-! ## C3 — balances never go negative -/

theorem nonNeg_updateAccount_record (db : Document) (q ty : String) (amt : ℚ)
    (note i ts : String) (hdb : NonNegDoc db) :
    NonNegDoc (updateAccount db q (fun x => record_tx x ty amt note i ts)) := by
  intro x hx
  have hx' : x ∈ updateFirstBy (fun a => a.account_no == some q)
      (fun x => record_tx x ty amt note i ts) db.accounts := hx
  rcases mem_updateFirstBy hx' with hmem | ⟨a, ha, rfl⟩
  · exact hdb x hmem
  · simpa [record_tx] using hdb a (List.mem_of_find?_eq_some ha)

theorem nonNeg_updateAccount_addBalance (db : Document) (q : String) (d : ℚ)
    (hdb : NonNegDoc db) (h : ∀ a, find_account db q = some a → 0 ≤ a.balance + d) :
    NonNegDoc (updateAccount db q (fun x => addBalance x d)) := by
  intro x hx
  have hx' : x ∈ updateFirstBy (fun a => a.account_no == some q)
      (fun x => addBalance x d) db.accounts := hx
  rcases mem_updateFirstBy hx' with hmem | ⟨a, ha, rfl⟩
  · exact hdb x hmem
  · simpa [addBalance] using h a ha

/-- **C3.**  Starting from a document in which every balance is
non-negative, every transaction-engine operation preserves that invariant
for every caller-supplied account number, PIN and amount: the four CLI
operations unconditionally, and the form operations under the bound their
amount widget enforces (`st.number_input(..., min_value=1.0)`, so the
callable amounts satisfy `1 ≤ amt`; the form Withdraw needs no bound at
all, since its own funds check suffices). -/
theorem c3_balance_nonneg : ∀ db : Document, NonNegDoc db →
    (∀ acc_no amt tx_id ts, NonNegDoc (deposit db acc_no amt tx_id ts).1) ∧
    (∀ acc_no pin amt tx_id ts, NonNegDoc (withdraw db acc_no pin amt tx_id ts).1) ∧
    (∀ f pin t amt i1 i2 ts, NonNegDoc (transfer db f pin t amt i1 i2 ts).1) ∧
    (∀ acc_no rate years apply_now tx_id ts,
      NonNegDoc (calc_interest db acc_no rate years apply_now tx_id ts).1) ∧
    (∀ acc_no pin amt tx_id ts, NonNegDoc (appWithdraw db acc_no pin amt tx_id ts).1) ∧
    (∀ acc_no amt tx_id ts, 1 ≤ amt → NonNegDoc (appDeposit db acc_no amt tx_id ts).1) ∧
    (∀ f pin t amt i1 i2 ts, 1 ≤ amt →
      NonNegDoc (appTransfer db f pin t amt i1 i2 ts).1) := by
  intro db hdb
  refine ⟨?_, ?_, ?_, ?_, ?_, ?_, ?_⟩
  · -- deposit
    intro acc_no amt tx_id ts
    rcases ha : find_account db acc_no with _ | a
    · simpa [deposit, ha] using hdb
    · by_cases hle : amt ≤ 0
      · simpa [deposit, ha, hle] using hdb
      · have e1 : (deposit db acc_no amt tx_id ts).1 =
            updateAccount (updateAccount db acc_no (fun x => addBalance x amt))
              acc_no (fun x => record_tx x "deposit" amt "deposit via CLI" tx_id ts) := by
          simp [deposit, ha, hle]
        rw [e1]
        refine nonNeg_updateAccount_record _ _ _ _ _ _ _ ?_
        refine nonNeg_updateAccount_addBalance _ _ _ hdb (fun b hb => ?_)
        have hbal := hdb b (List.mem_of_find?_eq_some hb)
        have hpos : 0 < amt := not_le.mp hle
        linarith
  · -- withdraw
    intro acc_no pin amt tx_id ts
    rcases ha : find_account db acc_no with _ | a
    · simpa [withdraw, ha] using hdb
    · rcases hv : verify_pin pin a.pin_salt a.pin_hash with hv0 | hv1
      · simpa [withdraw, ha, hv] using hdb
      · by_cases hle : amt ≤ 0
        · simpa [withdraw, ha, hv, hle] using hdb
        · by_cases hlt : a.balance < amt
          · simpa [withdraw, ha, hv, hle, hlt] using hdb
          · have e1 : (withdraw db acc_no pin amt tx_id ts).1 =
                updateAccount (updateAccount db acc_no (fun x => addBalance x (-amt)))
                  acc_no (fun x => record_tx x "withdraw" amt "withdraw via CLI" tx_id ts) := by
              simp [withdraw, ha, hv, hle, hlt]
            rw [e1]
            refine nonNeg_updateAccount_record _ _ _ _ _ _ _ ?_
            refine nonNeg_updateAccount_addBalance _ _ _ hdb (fun b hb => ?_)
            rw [ha] at hb
            cases hb
            have := not_lt.mp hlt
            linarith
  · -- transfer
    intro f pin t amt i1 i2 ts
    rcases ha : find_account db f with _ | af
    · simpa [transfer, ha] using hdb
    · rcases hv : verify_pin pin af.pin_salt af.pin_hash with hv0 | hv1
      · simpa [transfer, ha, hv] using hdb
      · rcases hb : find_account db t with _ | bt
        · simpa [transfer, ha, hv, hb] using hdb
        · by_cases htf : t = f
          · simpa [transfer, ha, hv, hb, htf] using hdb
          · by_cases hle : amt ≤ 0
            · simpa [transfer, ha, hv, hb, htf, hle] using hdb
            · by_cases hlt : af.balance < amt
              · simpa [transfer, ha, hv, hb, htf, hle, hlt] using hdb
              · have e1 : (transfer db f pin t amt i1 i2 ts).1 =
                    updateAccount
                      (updateAccount
                        (updateAccount
                          (updateAccount db f (fun x => addBalance x (-amt))) t
                          (fun x => addBalance x amt)) f
                        (fun x => record_tx x "transfer_out" amt ("to " ++ t) i1 ts)) t
                      (fun x => record_tx x "transfer_in" amt ("from " ++ f) i2 ts) := by
                  simp [transfer, ha, hv, hb, htf, hle, hlt]
                rw [e1]
                have h1 : NonNegDoc (updateAccount db f (fun x => addBalance x (-amt))) := by
                  refine nonNeg_updateAccount_addBalance _ _ _ hdb (fun b hb' => ?_)
                  rw [ha] at hb'
                  cases hb'
                  have := not_lt.mp hlt
                  linarith
                have h2 : NonNegDoc (updateAccount
                    (updateAccount db f (fun x => addBalance x (-amt))) t
                    (fun x => addBalance x amt)) := by
                  refine nonNeg_updateAccount_addBalance _ _ _ h1 (fun b hb' => ?_)
                  have hbal := h1 b (List.mem_of_find?_eq_some hb')
                  have hpos : 0 < amt := not_le.mp hle
                  linarith
                exact nonNeg_updateAccount_record _ _ _ _ _ _ _
                  (nonNeg_updateAccount_record _ _ _ _ _ _ _ h2)
  · -- calc_interest
    intro acc_no rate years apply_now tx_id ts
    rcases ha : find_account db acc_no with _ | a
    · simpa [calc_interest, ha] using hdb
    · by_cases hr : rate < 0 ∨ years ≤ 0
      · simpa [calc_interest, ha, hr] using hdb
      · rcases apply_now with h0 | h1
        · simpa [calc_interest, ha, hr] using hdb
        · have e1 : (calc_interest db acc_no rate years true tx_id ts).1 =
              updateAccount
                (updateAccount db acc_no
                  (fun x => addBalance x (a.balance * (rate / 100) * years))) acc_no
                (fun x => record_tx x "interest" (a.balance * (rate / 100) * years)
                  (toString rate ++ "% for " ++ toString years ++ " yrs") tx_id ts) := by
            simp [calc_interest, ha, hr]
          rw [e1]
          refine nonNeg_updateAccount_record _ _ _ _ _ _ _ ?_
          refine nonNeg_updateAccount_addBalance _ _ _ hdb (fun b hb => ?_)
          rw [ha] at hb
          cases hb
          push_neg at hr
          have hbal := hdb a (List.mem_of_find?_eq_some ha)
          have hint : 0 ≤ a.balance * (rate / 100) * years :=
            mul_nonneg (mul_nonneg hbal (by linarith [hr.1])) (le_of_lt hr.2)
          linarith
  · -- appWithdraw
    intro acc_no pin amt tx_id ts
    rcases ha : find_account db acc_no with _ | a
    · simpa [appWithdraw, ha] using hdb
    · rcases hv : verify_pin pin a.pin_salt a.pin_hash with hv0 | hv1
      · simpa [appWithdraw, ha, hv] using hdb
      · by_cases hlt : a.balance < amt
        · simpa [appWithdraw, ha, hv, hlt] using hdb
        · have e1 : (appWithdraw db acc_no pin amt tx_id ts).1 =
              updateAccount (updateAccount db acc_no (fun x => addBalance x (-amt)))
                acc_no (fun x => record_tx x "withdraw" amt "" tx_id ts) := by
            simp [appWithdraw, ha, hv, hlt]
          rw [e1]
          refine nonNeg_updateAccount_record _ _ _ _ _ _ _ ?_
          refine nonNeg_updateAccount_addBalance _ _ _ hdb (fun b hb => ?_)
          rw [ha] at hb
          cases hb
          have := not_lt.mp hlt
          linarith
  · -- appDeposit
    intro acc_no amt tx_id ts hamt
    rcases ha : find_account db acc_no with _ | a
    · simpa [appDeposit, ha] using hdb
    · have e1 : (appDeposit db acc_no amt tx_id ts).1 =
          updateAccount (updateAccount db acc_no (fun x => addBalance x amt))
            acc_no (fun x => record_tx x "deposit" amt "" tx_id ts) := by
        simp [appDeposit, ha]
      rw [e1]
      refine nonNeg_updateAccount_record _ _ _ _ _ _ _ ?_
      refine nonNeg_updateAccount_addBalance _ _ _ hdb (fun b hb => ?_)
      have hbal := hdb b (List.mem_of_find?_eq_some hb)
      linarith
  · -- appTransfer
    intro f pin t amt i1 i2 ts hamt
    rcases ha : find_account db f with _ | af
    · simpa [appTransfer, ha] using hdb
    · rcases hb : find_account db t with _ | bt
      · simpa [appTransfer, ha, hb] using hdb
      · rcases hv : verify_pin pin af.pin_salt af.pin_hash with hv0 | hv1
        · simpa [appTransfer, ha, hb, hv] using hdb
        · by_cases hlt : af.balance < amt
          · simpa [appTransfer, ha, hb, hv, hlt] using hdb
          · have e1 : (appTransfer db f pin t amt i1 i2 ts).1 =
                updateAccount
                  (updateAccount
                    (updateAccount
                      (updateAccount db f (fun x => addBalance x (-amt))) t
                      (fun x => addBalance x amt)) f
                    (fun x => record_tx x "transfer_out" amt ("to " ++ t) i1 ts)) t
                  (fun x => record_tx x "transfer_in" amt ("from " ++ f) i2 ts) := by
              simp [appTransfer, ha, hb, hv, hlt]
            rw [e1]
            have h1 : NonNegDoc (updateAccount db f (fun x => addBalance x (-amt))) := by
              refine nonNeg_updateAccount_addBalance _ _ _ hdb (fun b hb' => ?_)
              rw [ha] at hb'
              cases hb'
              have := not_lt.mp hlt
              linarith
            have h2 : NonNegDoc (updateAccount
                (updateAccount db f (fun x => addBalance x (-amt))) t
                (fun x => addBalance x amt)) := by
              refine nonNeg_updateAccount_addBalance _ _ _ h1 (fun b hb' => ?_)
              have hbal := h1 b (List.mem_of_find?_eq_some hb')
              linarith
            exact nonNeg_updateAccount_record _ _ _ _ _ _ _
              (nonNeg_updateAccount_record _ _ _ _ _ _ _ h2)

/-- **C3, witness.**  The invariant carried through a concrete deposit on
the sample document. -/
theorem c3_witness : NonNegDoc (deposit sampleDoc "ABCD123456" 250 "tx" "T").1 := by
  have hdb : NonNegDoc sampleDoc := by
    intro a ha
    simp [sampleDoc] at ha
    rcases ha with rfl | rfl
    · norm_num [goodAcct]
    · norm_num [otherAcct]
  exact (c3_balance_nonneg sampleDoc hdb).1 "ABCD123456" 250 "tx" "T"

/-! ## C6 — account-number generation under total collision -/

/-- **C6.**  With a candidate stream whose first ten draws all equal an
existing account number: the CLI `create_account` aborts and leaves the
document untouched (its `for`/`else` signals failure), but the form's
Create Account branch appends an account anyway — with `account_no` `None`
(and echoes `None` to the user), so the document gains an account the
directory can never find and a second such collision would leave two
accounts with no distinct numbers. -/
theorem c6_app_create_appends_null_on_collision :
    pickAccNo (List.replicate 10 "ABCD123456") sampleDoc = none ∧
    (appCreateAccount sampleDoc (List.replicate 10 "ABCD123456") "dora" "4321" "f8").2 =
      none ∧
    ((appCreateAccount sampleDoc (List.replicate 10 "ABCD123456") "dora" "4321"
        "f8").1.accounts.map (fun a => a.account_no)) =
      [some "ABCD123456", some "WXYZ999999", none] ∧
    create_account sampleDoc (List.replicate 10 "ABCD123456") "dora" "4321" "f8" =
      (sampleDoc, some TxError.genFailed) := by
  exact ⟨rfl, rfl, rfl, rfl⟩

end Bank
